import Mathlib

/-
Verification of the Fritzing component catalog pipeline
(src/backend/services/fritzing_service.py).

The Python service is shallowly embedded below.  Machine floats are
modelled exactly: every number this pipeline manipulates is parsed from a
decimal literal or multiplied by 72, so values are represented by the
type `Dec` of exact decimal fractions (mantissa and power-of-ten
exponent, kept in a canonical trailing-zero-free form so that structural
equality is value equality).  No claim observes binary rounding.  Raised
Python exceptions are modelled as `none` (or `Except.error`) at the
boundary where the source catches them; filesystem and network results
are passed in as explicit arguments.  Python string primitives
(`str.lower`, `str.replace`, `str.split`, `str.strip`, substring `in`)
are re-implemented over character lists by structural recursion so that
the kernel can evaluate them.
-/

/- An exact decimal fraction `m / 10 ^ e`. -/
structure Dec where
  m : Int
  e : Nat
deriving DecidableEq

/- Strip factors of ten so that the representation is canonical; the
   first argument is recursion fuel, always called with `fuel = e`. -/
def Dec.norm10 : Nat → Int → Nat → Dec
  | 0, m, e => ⟨m, e⟩
  | fuel + 1, m, e =>
    match e with
    | 0 => ⟨m, 0⟩
    | e' + 1 => if m % 10 == 0 then Dec.norm10 fuel (m / 10) e' else ⟨m, e' + 1⟩

/- Canonicalizing constructor: the value `m / 10 ^ e`. -/
def Dec.make (m : Int) (e : Nat) : Dec := Dec.norm10 e m e

def Dec.neg (a : Dec) : Dec := ⟨-a.m, a.e⟩

def Dec.mul (a b : Dec) : Dec := Dec.make (a.m * b.m) (a.e + b.e)

instance (n : Nat) : OfNat Dec n := ⟨Dec.make n 0⟩

instance : Neg Dec := ⟨Dec.neg⟩

instance : Mul Dec := ⟨Dec.mul⟩

instance : OfScientific Dec :=
  ⟨fun mant s ex => if s then Dec.make mant ex else Dec.make (mant * 10 ^ ex) 0⟩

/- Python substring test `needle in hay`, on character lists. -/
def listIn (needle : List Char) : List Char → Bool
  | [] => needle.isEmpty
  | c :: rest => List.isPrefixOf needle (c :: rest) || listIn needle rest

/- Python `needle in hay` for strings. -/
def strIn (needle hay : String) : Bool :=
  listIn needle.toList hay.toList

/- ASCII lowering of one character; every identifier and category term
   this pipeline compares is ASCII, where Python `str.lower` agrees. -/
def lowerChar (c : Char) : Char :=
  if 65 ≤ c.toNat && c.toNat ≤ 90 then Char.ofNat (c.toNat + 32) else c

/- Python `s.lower()`. -/
def lowerStr (s : String) : String :=
  (s.toList.map lowerChar).asString

/- Python `s.replace(needle, "")` for a non-empty needle, by fuel
   recursion (the fuel is the input length, enough since every step
   consumes at least one character). -/
def removeFuel (needle : List Char) : Nat → List Char → List Char
  | _, [] => []
  | 0, l => l
  | fuel + 1, c :: rest =>
    if List.isPrefixOf needle (c :: rest) then
      removeFuel needle fuel ((c :: rest).drop needle.length)
    else
      c :: removeFuel needle fuel rest

def removeAll (needle : String) (s : String) : String :=
  (removeFuel needle.toList s.toList.length s.toList).asString

/- Python `str.split()` with no arguments: maximal non-whitespace runs. -/
def splitWsAux : List Char → List Char → List String
  | cur, [] => if cur.isEmpty then [] else [cur.reverse.asString]
  | cur, c :: rest =>
    if c.isWhitespace then
      if cur.isEmpty then splitWsAux [] rest
      else cur.reverse.asString :: splitWsAux [] rest
    else splitWsAux (c :: cur) rest

def pySplit (s : String) : List String :=
  splitWsAux [] s.toList

/- Python `str.strip()` of surrounding whitespace. -/
def pyStrip (l : List Char) : List Char :=
  ((l.dropWhile Char.isWhitespace).reverse.dropWhile Char.isWhitespace).reverse

/- Value of a digit run, most significant first. -/
def digitsToNat (l : List Char) : Nat :=
  l.foldl (fun a c => a * 10 + (c.toNat - 48)) 0

/- Python `float(s)` restricted to the character shapes the service can
   produce (sign, digits, one optional dot); `none` models a raised
   ValueError.  Exponents, inf and nan cannot occur: every string fed to
   `float` in the source is drawn from the character classes [0-9.-] or
   [0-9.]. -/
def pyFloatChars (l : List Char) : Option Dec :=
  let signAndRest : Bool × List Char :=
    match l with
    | '-' :: rest => (true, rest)
    | '+' :: rest => (false, rest)
    | _ => (false, l)
  let neg := signAndRest.1
  let l1 := signAndRest.2
  let ip := l1.takeWhile Char.isDigit
  let l2 := l1.dropWhile Char.isDigit
  match l2 with
  | [] =>
    if ip.isEmpty then none
    else
      let v := Dec.make (digitsToNat ip) 0
      some (if neg then -v else v)
  | '.' :: rest =>
    let fp := rest.takeWhile Char.isDigit
    let l3 := rest.dropWhile Char.isDigit
    if !l3.isEmpty then none
    else if ip.isEmpty && fp.isEmpty then none
    else
      let v := Dec.make (digitsToNat ip * 10 ^ fp.length + digitsToNat fp) fp.length
      some (if neg then -v else v)
  | _ => none

def pyFloat (s : String) : Option Dec :=
  pyFloatChars (pyStrip s.toList)

/- Character class [\d.-] of the path regex. -/
def isPathNumChar (c : Char) : Bool :=
  c.isDigit || c == '.' || c == '-'

/- The separator-and-second-group part `\s*,?\s*([\d.-]+)` of the path
   regex, including the backtracking over the optional comma. -/
def sepG2 (l : List Char) : Option String :=
  let l1 := l.dropWhile Char.isWhitespace
  match l1 with
  | ',' :: rest =>
    let l2 := rest.dropWhile Char.isWhitespace
    let g2 := l2.takeWhile isPathNumChar
    if g2.isEmpty then none else some g2.asString
  | _ =>
    let g2 := l1.takeWhile isPathNumChar
    if g2.isEmpty then none else some g2.asString

/- Match of `\s*([\d.-]+)\s*,?\s*([\d.-]+)` against the text following a
   literal `M`.  The first group is greedy; when no separator and second
   group can follow the full run, the regex engine backtracks one
   character, which always succeeds when the run has length at least
   two. -/
def afterM (l : List Char) : Option (String × String) :=
  let l1 := l.dropWhile Char.isWhitespace
  let run := l1.takeWhile isPathNumChar
  let restAll := l1.dropWhile isPathNumChar
  if run.isEmpty then none
  else
    match sepG2 restAll with
    | some g2 => some (run.asString, g2)
    | none =>
      if run.length ≥ 2 then
        some ((run.take (run.length - 1)).asString, (run.drop (run.length - 1)).asString)
      else none

/- Python `re.search` of the pattern `M\s*([\d.-]+)\s*,?\s*([\d.-]+)`: the leftmost
   occurrence of a capital `M` at which the rest of the pattern matches. -/
def searchMoveTo : List Char → Option (String × String)
  | [] => none
  | 'M' :: rest =>
    match afterM rest with
    | some g => some g
    | none => searchMoveTo rest
  | _ :: rest => searchMoveTo rest

/- One element of the parsed SVG tree, carrying the attributes the service
   reads.  An absent attribute is `none`; present attributes keep their raw
   string value exactly as in `elem.attrib`. -/
structure SvgElem where
  id : String := ""
  cx : Option String := none
  cy : Option String := none
  x : Option String := none
  y : Option String := none
  x1 : Option String := none
  y1 : Option String := none
  d : Option String := none
deriving DecidableEq

/- The parsed SVG document: the viewBox / width / height attributes
   and the full `root.iter()` traversal sequence of elements, in document
   order. -/
structure SvgRoot where
  viewBox : Option String := none
  width : Option String := none
  height : Option String := none
  elems : List SvgElem := []
deriving DecidableEq

/- Result of `ET.fromstring` on the raw SVG text: `malformed` models a
   raised ParseError. -/
inductive SvgContent
  | malformed
  | ok (root : SvgRoot)
deriving DecidableEq

/- Line 307: an element is a pin candidate iff its id, lowercased,
   contains "connector" and contains "pin" or "pad". -/
def isPinCandidate (elemId : String) : Bool :=
  strIn "connector" (lowerStr elemId) &&
    (strIn "pin" (lowerStr elemId) || strIn "pad" (lowerStr elemId))

/- Line 328: `elem_id.replace("pin", "").replace("pad", "")`. -/
def stripPinPad (s : String) : String :=
  removeAll "pad" (removeAll "pin" s)

/- Lines 308-325: coordinate of one candidate element, by attribute
   priority cx/cy, then x/y, then x1/y1, then the path moveto regex.
   `none` models a ValueError raised by `float`, which aborts the whole
   `parse_connector_positions` call; an element matching no rule keeps the
   initial x, y = 0, 0. -/
def extractCoord (e : SvgElem) : Option (Dec × Dec) :=
  if e.cx.isSome && e.cy.isSome then
    match pyFloat (e.cx.getD ""), pyFloat (e.cy.getD "") with
    | some a, some b => some (a, b)
    | _, _ => none
  else if e.x.isSome && e.y.isSome then
    match pyFloat (e.x.getD ""), pyFloat (e.y.getD "") with
    | some a, some b => some (a, b)
    | _, _ => none
  else if e.x1.isSome && e.y1.isSome then
    match pyFloat (e.x1.getD ""), pyFloat (e.y1.getD "") with
    | some a, some b => some (a, b)
    | _, _ => none
  else
    match e.d with
    | some sd =>
      match searchMoveTo sd.toList with
      | some (g1, g2) =>
        match pyFloat g1, pyFloat g2 with
        | some a, some b => some (a, b)
        | _, _ => none
      | none => some (0, 0)
    | none => some (0, 0)

/- One extracted coordinate: the dict of id, x, y built at
   line 329. -/
structure SvgConnector where
  id : String
  x : Dec
  y : Dec
deriving DecidableEq

/- The loop of lines 305-329; `none` models an exception escaping the
   loop, which the enclosing handler turns into an empty result. -/
def connLoop : List SvgElem → Option (List SvgConnector)
  | [] => some []
  | e :: rest =>
    if isPinCandidate e.id then
      match extractCoord e with
      | some (px, py) =>
        match connLoop rest with
        | some l => some ({ id := stripPinPad e.id, x := px, y := py } :: l)
        | none => none
      | none => none
    else connLoop rest

/- Lines 298-335: `parse_connector_positions`.  A malformed document or
   any exception inside the loop yields the empty list. -/
def parse_connector_positions (content : SvgContent) : List SvgConnector :=
  match content with
  | .malformed => []
  | .ok root =>
    match connLoop root.elems with
    | some l => l
    | none => []

/- Python `re.search` of the pattern `([\d.]+)`: first maximal run of [0-9.]. -/
def firstNumSub : List Char → Option String
  | [] => none
  | c :: rest =>
    if c.isDigit || c == '.' then
      some ((c :: rest).takeWhile (fun ch => ch.isDigit || ch == '.')).asString
    else firstNumSub rest

/- Lines 349-367: the width/height branch of `get_svg_dimensions`, applied
   to the raw attribute strings (with their Python defaults already
   substituted).  `none` covers both a regex with no match (falling off
   the end of the try block) and a `float` ValueError; both produce the
   72 by 93.6 fallback. -/
def dimsViaWH (width height : String) : Option (Dec × Dec) :=
  match firstNumSub width.toList, firstNumSub height.toList with
  | some ws, some hs =>
    match pyFloat ws, pyFloat hs with
    | some w0, some h0 =>
      some ((if strIn "in" width then w0 * 72 else w0),
            (if strIn "in" height then h0 * 72 else h0))
    | _, _ => none
  | _, _ => none

/- Lines 342-367: the body of the try block of `get_svg_dimensions`. -/
def dimsTry (root : SvgRoot) : Option (Dec × Dec) :=
  match root.viewBox with
  | some vb =>
    if vb = "" then dimsViaWH (root.width.getD "72") (root.height.getD "93.6")
    else
      let parts := pySplit vb
      if parts.length = 4 then
        match pyFloat (parts.getD 2 ""), pyFloat (parts.getD 3 "") with
        | some w, some h => some (w, h)
        | _, _ => none
      else dimsViaWH (root.width.getD "72") (root.height.getD "93.6")
  | none => dimsViaWH (root.width.getD "72") (root.height.getD "93.6")

/- Lines 337-373: `get_svg_dimensions`, with the fixed 72 by 93.6
   fallback for a malformed document or any failed extraction. -/
def get_svg_dimensions (content : SvgContent) : Dec × Dec :=
  match content with
  | .malformed => (72, 93.6)
  | .ok root =>
    match dimsTry root with
    | some wh => wh
    | none => (72, 93.6)

/- One connector dict as assembled by `parse_connectors` (lines 238-246)
   and enriched at lines 396-403.  The Python `type` key is `ctype` here;
   `svgWidth` and `svgHeight` are `none` while the dict lacks those keys. -/
structure Connector where
  id : String
  name : String
  description : String
  ctype : String
  svgId : String
  x : Dec
  y : Dec
  svgWidth : Option Dec := none
  svgHeight : Option Dec := none
deriving DecidableEq

/- One declared connector element of a description document, with the
   defaults the source applies at lines 221-236 for absent attributes
   already substituted (empty strings for id/name/svgId, "unknown" for type). -/
structure FzpPin where
  id : String := ""
  name : String := ""
  ptype : String := "unknown"
  description : String := ""
  svgId : String := ""
deriving DecidableEq

/- The structurally relevant content of a well-formed description
   document, as read by `parse_fzp_file`: `none` fields mean the element
   or attribute is absent.  `iconImage` / `breadboardImage` are the
   `views/…View/layers/layer@image` attributes of lines 148-163. -/
structure FzpData where
  title : Option String := none
  description : Option String := none
  tags : List String := []
  pins : List FzpPin := []
  properties : List (String × String) := []
  iconImage : Option String := none
  breadboardImage : Option String := none
deriving DecidableEq

/- Result of `ET.parse` on one description document: `malformed` models a
   raised ParseError. -/
inductive FzpDoc
  | malformed
  | ok (d : FzpData)
deriving DecidableEq

/- The FritzingComponent record of lines 13-38. -/
structure FritzingComponent where
  id : String
  title : String
  description : String
  category : String
  tags : List String
  icon_url : String
  breadboard_url : String
  connectors : List Connector
  properties : List (String × String)
deriving DecidableEq

/- Exceptions the embedded fragments raise. -/
inductive PyErr
  | typeError
  | parseError
deriving DecidableEq

def base_url : String :=
  "https://raw.githubusercontent.com/fritzing/fritzing-parts/develop"

/- Last path component; the behavior of a correct single-argument
   `os.path.basename` call. -/
def basenameOf (p : String) : String :=
  (p.toList.reverse.takeWhile (fun c => !(c == '/'))).reverse.asString

/- Python `os.path.basename` as called by the source.  Its signature
   accepts a single path argument, so the two-argument calls in the source,
   `os.path.basename(file_path, ".fzp")` at lines 124, 140 and 189, raise
   TypeError. -/
def os_path_basename (args : List String) : Except PyErr String :=
  match args with
  | [p] => Except.ok (basenameOf p)
  | _ => Except.error PyErr.typeError

/- Lines 187-211: `extract_category`. -/
def extract_category (file_path : String) : Except PyErr String := do
  let filename := lowerStr (← os_path_basename [file_path, ".fzp"])
  if ["resistor", "capacitor", "inductor"].any (fun t => strIn t filename) then
    pure "Basic"
  else if ["led", "diode", "transistor"].any (fun t => strIn t filename) then
    pure "Semiconductors"
  else if ["arduino", "raspberry", "microcontroller"].any (fun t => strIn t filename) then
    pure "Microcontrollers"
  else if ["sensor", "accelerometer", "gyro"].any (fun t => strIn t filename) then
    pure "Sensors"
  else if ["motor", "servo", "actuator"].any (fun t => strIn t filename) then
    pure "Actuators"
  else if ["switch", "button", "potentiometer"].any (fun t => strIn t filename) then
    pure "Input"
  else if ["speaker", "display", "lcd"].any (fun t => strIn t filename) then
    pure "Output"
  else if ["connector", "header", "pin"].any (fun t => strIn t filename) then
    pure "Connectors"
  else if ["power", "battery", "regulator"].any (fun t => strIn t filename) then
    pure "Power"
  else
    pure "Miscellaneous"

/- Lines 213-248: `parse_connectors`, building the connector dicts with
   x, y initialized to 0. -/
def parse_connectors (pins : List FzpPin) : List Connector :=
  pins.map (fun p =>
    { id := p.id, name := p.name, description := p.description, ctype := p.ptype,
      svgId := p.svgId, x := 0, y := 0, svgWidth := none, svgHeight := none })

/- Lines 250-263: `parse_properties`.  Entries with an empty name are
   dropped; the source stores the rest in a dict, which no claim observes
   beyond this filtered sequence. -/
def parse_properties (props : List (String × String)) : List (String × String) :=
  props.filter (fun p => p.1 != "")

/- Lines 116-185: `parse_fzp_file`.  The whole body sits in one try block
   whose handler logs and returns None, so a ParseError from `ET.parse`
   and the TypeError raised by the two-argument `os.path.basename` calls
   both surface as `none`. -/
def parse_fzp_file (file_path repository : String) (doc : FzpDoc) :
    Option FritzingComponent :=
  let body : Except PyErr FritzingComponent :=
    match doc with
    | .malformed => Except.error PyErr.parseError
    | .ok d => do
      let title ← match d.title with
        | some t => pure t
        | none => os_path_basename [file_path, ".fzp"]
      let description := d.description.getD ""
      let category ← extract_category file_path
      let tags := d.tags
      let component_id ← os_path_basename [file_path, ".fzp"]
      let icon_url := match d.iconImage with
        | some img => base_url ++ "/svg/" ++ repository ++ "/" ++ img
        | none => base_url ++ "/svg/" ++ repository ++ "/icon/" ++ component_id ++ ".svg"
      let breadboard_url := match d.breadboardImage with
        | some img => base_url ++ "/svg/" ++ repository ++ "/" ++ img
        | none => base_url ++ "/svg/" ++ repository ++ "/breadboard/" ++ component_id ++ ".svg"
      let connectors := parse_connectors d.pins
      let properties := parse_properties d.properties
      Except.ok
        { id := component_id
          title := title
          description := description
          category := category
          tags := tags
          icon_url := icon_url
          breadboard_url := breadboard_url
          connectors := connectors
          properties := properties }
  match body with
  | .ok c => some c
  | .error _ => none

/- Lines 389-392: the match condition of the reconciler, one candidate
   coordinate against one declared connector.  Python truthiness of
   the svgId entry is the non-emptiness test. -/
def connectorMatches (c : Connector) (sc : SvgConnector) : Bool :=
  (!(c.svgId == "") && (sc.id == c.svgId)) ||
    (sc.id == c.id) ||
    strIn sc.id c.id ||
    strIn c.id sc.id

/- Lines 385-403: enrichment of one declared connector: the first
   coordinate in list order satisfying any rule supplies x and y, and the
   dimensions of the graphic are always attached. -/
def update_connector (svgConnectors : List SvgConnector) (w h : Dec)
    (c : Connector) : Connector :=
  let c' := match svgConnectors.find? (fun sc => connectorMatches c sc) with
    | some sc => { c with x := sc.x, y := sc.y }
    | none => c
  { c' with svgWidth := some w, svgHeight := some h }

/- Lines 375-421: `update_component_with_connector_positions`.  The
   `svg` argument is the result of `get_component_svg`: `none` models
   both a None return and empty text (both falsy at line 379), in which
   case the component is returned unchanged. -/
def update_component_with_connector_positions (svg : Option SvgContent)
    (component : FritzingComponent) : FritzingComponent :=
  match svg with
  | none => component
  | some content =>
    let svgConnectors := parse_connector_positions content
    let wh := get_svg_dimensions content
    { component with
        connectors := component.connectors.map (update_connector svgConnectors wh.1 wh.2) }

/- One discovered description document together with the graphic the
   asset-retrieval collaborator would hand back for it. -/
structure SourceFile where
  path : String
  repo : String
  doc : FzpDoc
  svg : Option SvgContent
deriving DecidableEq

/- The mutable service fields of lines 44-45. -/
structure ServiceState where
  components_cache : List FritzingComponent
  loaded : Bool
deriving DecidableEq

/- Lines 67-100: `load_components`.  `files` is the discovery-ordered,
   per-repository-capped concatenation of documents found under the
   existing sub-collections.  The returned Nat counts the documents read
   and parse-attempted by this call: 0 means the call did no filesystem
   work beyond the cache check.  The guard at line 69 requires a
   non-empty cache because Python truthiness of `self.components_cache`
   is emptiness. -/
def load_components (files : List SourceFile) (s : ServiceState) :
    ServiceState × List FritzingComponent × Nat :=
  if s.loaded && !s.components_cache.isEmpty then
    (s, s.components_cache, 0)
  else
    let components := files.filterMap (fun f =>
      (parse_fzp_file f.path f.repo f.doc).map
        (fun c => update_component_with_connector_positions f.svg c))
    ({ components_cache := components, loaded := true }, components, files.length)

/- Helper: a prefix on which the predicate is everywhere false does not
   affect `find?`. -/
theorem find_append_of_all_false {α : Type} (p : α → Bool) (pre l : List α)
    (h : ∀ a ∈ pre, p a = false) :
    List.find? p (pre ++ l) = List.find? p l := by
  induction pre with
  | nil => rfl
  | cons a t ih =>
    have ha := h a (List.mem_cons_self a t)
    simp only [List.cons_append, List.find?, ha]
    exact ih (fun b hb => h b (List.mem_cons_of_mem a hb))

/-- C1 counterexample: the claim is false on the code.  For the declared
pin with id "A" and graphic-hint "HINT", against the coordinate list
[("A", 1, 1), ("HINT", 2, 2)], the hint-exact coordinate ("HINT", 2, 2)
is present, yet the reconciled pin gets (1, 1): the loop at lines
388-394 scans coordinates in list order and takes the first coordinate
satisfying ANY of the four rules, so the earlier coordinate "A",
matching only the lower-priority exact-id rule, wins. -/
theorem C1_counterexample :
    ((⟨"HINT", 2, 2⟩ : SvgConnector) ∈ [(⟨"A", 1, 1⟩ : SvgConnector), ⟨"HINT", 2, 2⟩]) ∧
    (⟨"A", "", "", "unknown", "HINT", 0, 0, none, none⟩ : Connector).svgId = "HINT" ∧
    (update_connector [⟨"A", 1, 1⟩, ⟨"HINT", 2, 2⟩] 72 (93.6 : Dec)
        ⟨"A", "", "", "unknown", "HINT", 0, 0, none, none⟩).x = 1 ∧
    (update_connector [⟨"A", 1, 1⟩, ⟨"HINT", 2, 2⟩] 72 (93.6 : Dec)
        ⟨"A", "", "", "unknown", "HINT", 0, 0, none, none⟩).y = 1 ∧
    ¬ ((update_connector [⟨"A", 1, 1⟩, ⟨"HINT", 2, 2⟩] 72 (93.6 : Dec)
        ⟨"A", "", "", "unknown", "HINT", 0, 0, none, none⟩).x = 2 ∧
       (update_connector [⟨"A", 1, 1⟩, ⟨"HINT", 2, 2⟩] 72 (93.6 : Dec)
        ⟨"A", "", "", "unknown", "HINT", 0, 0, none, none⟩).y = 2) := by
  decide

/-- C1 (amended): matching scans candidate coordinates in list order and
the first coordinate satisfying any of the four rules wins; consequently
a coordinate whose identifier exactly equals the non-empty graphic-hint
of the pin supplies the reconciled (x, y) exactly when no earlier
coordinate in the list satisfies any rule. -/
theorem C1_hint_exact_wins_when_first (c : Connector) (pre post : List SvgConnector)
    (sc : SvgConnector) (w h : Dec)
    (h1 : c.svgId ≠ "") (h2 : sc.id = c.svgId)
    (h3 : ∀ a ∈ pre, connectorMatches c a = false) :
    update_connector (pre ++ sc :: post) w h c =
      { c with x := sc.x, y := sc.y, svgWidth := some w, svgHeight := some h } := by
  have hsvg : (c.svgId == "") = false := by
    simp [h1]
  have hsc : connectorMatches c sc = true := by
    simp [connectorMatches, h2, hsvg]
  unfold update_connector
  rw [find_append_of_all_false _ _ _ h3]
  simp only [List.find?, hsc]

/-- C1 witness: the amended theorem applied at a concrete input in which
the hint-exact coordinate is preceded by one non-matching coordinate. -/
theorem C1_witness :
    update_connector [⟨"ZZZ", 5, 5⟩, ⟨"HINT", 2, 3⟩] 72 (93.6 : Dec)
        ⟨"p1", "", "", "unknown", "HINT", 0, 0, none, none⟩ =
      ⟨"p1", "", "", "unknown", "HINT", 2, 3, some 72, some (93.6 : Dec)⟩ := by
  have h := C1_hint_exact_wins_when_first
    ⟨"p1", "", "", "unknown", "HINT", 0, 0, none, none⟩
    [⟨"ZZZ", 5, 5⟩] [] ⟨"HINT", 2, 3⟩ 72 (93.6 : Dec)
    (by decide) (by decide) (by decide)
  exact h

/-- C3 counterexample: the claim is false on the code.  When no graphic
text is available the reconciler returns the component unchanged, so the
pins do NOT receive the fallback dimensions: the svgWidth and svgHeight
keys are simply absent (line 421 returns the original component without
entering the enrichment block at lines 379-416). -/
theorem C3_counterexample :
    ¬ (∀ c' ∈ (update_component_with_connector_positions none
        ⟨"c1", "T", "", "Misc", [], "", "",
          [⟨"connector0", "", "", "male", "", 0, 0, none, none⟩], []⟩).connectors,
        c'.svgWidth = some 72 ∧ c'.svgHeight = some (93.6 : Dec)) := by
  decide

/-- C3 (amended): when graphic retrieval or extraction fails entirely
(no graphic text available), the reconciler is a strict passthrough: the
component is returned unchanged, so every pin keeps its (0, 0)
coordinate and NO dimension fields are attached. -/
theorem C3_passthrough_identity (comp : FritzingComponent) :
    update_component_with_connector_positions none comp = comp := rfl

/-- C4 counterexample: the claim is false on the code.  A graphic that
fails to parse as markup is handled INSIDE the extractors (lines 333-335
return an empty list, lines 369-373 return the fallback dimensions), so
the per-document reconciliation does not skip the component: it still
produces an enriched record whose single pin carries the fallback
dimensions, contradicting the claimed skip-and-contribute-no-record
behavior. -/
theorem C4_counterexample :
    parse_connector_positions .malformed = [] ∧
    get_svg_dimensions .malformed = (72, (93.6 : Dec)) ∧
    (update_component_with_connector_positions (some .malformed)
        ⟨"c1", "T", "", "Misc", [], "", "",
          [⟨"connector0", "", "", "male", "", 0, 0, none, none⟩], []⟩).connectors =
      [⟨"connector0", "", "", "male", "", 0, 0, some 72, some (93.6 : Dec)⟩] := by
  decide

/-- C4 (amended): a graphic document that fails to parse as valid markup
yields an empty extracted coordinate list and the fallback dimensions
72 by 93.6; the error is absorbed inside the extractor, and the
component is NOT skipped: reconciliation still produces a record in
which every pin keeps its coordinates and receives the fallback
dimensions. -/
theorem C4_malformed_graphic_degrades (comp : FritzingComponent) :
    parse_connector_positions .malformed = [] ∧
    get_svg_dimensions .malformed = (72, (93.6 : Dec)) ∧
    update_component_with_connector_positions (some .malformed) comp =
      { comp with connectors := comp.connectors.map (fun c =>
          { c with svgWidth := some 72, svgHeight := some (93.6 : Dec) }) } :=
  ⟨rfl, rfl, rfl⟩

/- Helper: the enrichment of one connector never changes its declared
   fields. -/
def connSig (c : Connector) : String × String × String × String × String :=
  (c.id, c.name, c.description, c.ctype, c.svgId)

theorem connSig_update (coords : List SvgConnector) (w h : Dec) (c : Connector) :
    connSig (update_connector coords w h c) = connSig c := by
  unfold update_connector
  cases List.find? (fun sc => connectorMatches c sc) coords <;> rfl

/-- C6: for every component record and every graphic outcome (hence
every coordinate list and dimensions), reconciliation preserves the pin
count and the declaration order: the enriched connector list has the
same length and position-wise the same declared fields (id, name,
description, type, svgId) as the declared list. -/
theorem C6_pin_count_order_preserved (svg : Option SvgContent)
    (comp : FritzingComponent) :
    (update_component_with_connector_positions svg comp).connectors.length =
      comp.connectors.length ∧
    (update_component_with_connector_positions svg comp).connectors.map connSig =
      comp.connectors.map connSig := by
  cases svg with
  | none => exact ⟨rfl, rfl⟩
  | some content =>
    constructor
    · simp [update_component_with_connector_positions]
    · simp only [update_component_with_connector_positions, List.map_map]
      exact List.map_congr_left (fun c _ => connSig_update _ _ _ c)

/-- C2: the claim is right and the code has a slip.  The isolation
machinery (per-document try/except at lines 87-93) exists, but
`parse_fzp_file` calls `os.path.basename(file_path, ".fzp")` with two
arguments (lines 124, 140 and via `extract_category` at line 189);
Python `os.path.basename` accepts a single argument, so every document,
including a perfectly valid one, raises TypeError inside the try block
and yields None.  Hence a sub-collection with one malformed and one
valid document loads ZERO ComponentRecords, not the one the claim (and
the spec) requires. -/
theorem C2_basename_type_error :
    parse_fzp_file "core/led.fzp" "core"
      (.ok { title := some "LED", description := some "A light emitting diode",
             tags := ["LED"],
             pins := [{ id := "connector0", name := "anode", ptype := "male",
                        svgId := "connector0pin" }],
             properties := [("family", "LED")] }) = none ∧
    (load_components
        [⟨"core/bad.fzp", "core", .malformed, none⟩,
         ⟨"core/led.fzp", "core",
           .ok { title := some "LED", description := some "A light emitting diode",
                 tags := ["LED"],
                 pins := [{ id := "connector0", name := "anode", ptype := "male",
                            svgId := "connector0pin" }],
                 properties := [("family", "LED")] },
           some (.ok { viewBox := some "0 0 36 79.2",
                       elems := [{ id := "connector0pin", cx := some "1", cy := some "2" }] })⟩]
        ⟨[], false⟩).2.1.length = 0 := by
  decide

/-- C5 counterexample: the claim is false on the code for an empty
first-load result.  After a first load over one (failing) document, the
cache guard at line 69 requires a non-empty `components_cache` (Python
truthiness), so the second call re-runs discovery and parsing: its work
counter is 1, not the 0 the claim requires. -/
theorem C5_counterexample :
    (load_components [⟨"a.fzp", "core", .malformed, none⟩]
      ((load_components [⟨"a.fzp", "core", .malformed, none⟩] ⟨[], false⟩).1)).2.2 ≠ 0 := by
  decide

/-- C5 (amended): idempotence holds only for a non-empty cached catalog:
whenever the service state is loaded and its cache is non-empty, a
further load call returns exactly the cached catalog, leaves the state
unchanged, and performs no filesystem or parsing work (work counter 0).
An empty first-load result fails the truthiness guard and is re-parsed. -/
theorem C5_cached_nonempty (files : List SourceFile) (s : ServiceState)
    (h1 : s.loaded = true) (h2 : s.components_cache ≠ []) :
    load_components files s = (s, s.components_cache, 0) := by
  have hne : s.components_cache.isEmpty = false := by
    cases hc : s.components_cache with
    | nil => exact absurd hc h2
    | cons a l => rfl
  simp [load_components, h1, hne]

/-- C5 witness: the amended theorem applied to a loaded state with a
one-component cache. -/
theorem C5_witness :
    load_components []
      { components_cache := [⟨"r1", "Resistor", "", "Basic", [], "", "", [], []⟩],
        loaded := true } =
      ({ components_cache := [⟨"r1", "Resistor", "", "Basic", [], "", "", [], []⟩],
         loaded := true },
       [⟨"r1", "Resistor", "", "Basic", [], "", "", [], []⟩], 0) :=
  C5_cached_nonempty []
    { components_cache := [⟨"r1", "Resistor", "", "Basic", [], "", "", [], []⟩],
      loaded := true }
    rfl (by simp)

/- A graphic whose traversal holds two elements normalizing to the same
   coordinate identifier "connector1". -/
def dupSvg : SvgContent :=
  .ok { elems := [{ id := "connector1pin", cx := some "1", cy := some "1" },
                  { id := "connector1pin", cx := some "2", cy := some "2" }] }

/-- C7 counterexample: the claim is false on the code about which
duplicate wins.  Extraction keeps both coordinates with the duplicated
identifier (no failure), but for a pin matching that identifier the
reconciliation loop at lines 388-394 breaks on the FIRST coordinate in
traversal order, yielding (1, 1), not the LAST-encountered (2, 2)
claimed. -/
theorem C7_counterexample :
    parse_connector_positions dupSvg =
      [⟨"connector1", 1, 1⟩, ⟨"connector1", 2, 2⟩] ∧
    (update_connector (parse_connector_positions dupSvg) 72 (93.6 : Dec)
        ⟨"connector1", "", "", "unknown", "", 0, 0, none, none⟩).x = 1 ∧
    ¬ ((update_connector (parse_connector_positions dupSvg) 72 (93.6 : Dec)
        ⟨"connector1", "", "", "unknown", "", 0, 0, none, none⟩).x = 2 ∧
       (update_connector (parse_connector_positions dupSvg) 72 (93.6 : Dec)
        ⟨"connector1", "", "", "unknown", "", 0, 0, none, none⟩).y = 2) := by
  decide

/-- C7 (amended): extraction retains every duplicate (both coordinates
of the duplicated identifier appear in the extracted list, in traversal
order, and extraction does not fail), and reconciliation uses the FIRST
coordinate encountered that satisfies a matching rule: whenever the head
of the coordinate list matches the pin, its (x, y) is taken regardless
of what follows. -/
theorem C7_first_match_wins (pin : Connector) (sc : SvgConnector)
    (rest : List SvgConnector) (w h : Dec)
    (hm : connectorMatches pin sc = true) :
    parse_connector_positions dupSvg =
      [⟨"connector1", 1, 1⟩, ⟨"connector1", 2, 2⟩] ∧
    update_connector (sc :: rest) w h pin =
      { pin with x := sc.x, y := sc.y, svgWidth := some w, svgHeight := some h } := by
  constructor
  · decide
  · unfold update_connector
    simp only [List.find?, hm]

/-- C7 witness: the amended theorem applied to the duplicate coordinate
list itself, with the pin whose id equals the duplicated identifier. -/
theorem C7_witness :
    parse_connector_positions dupSvg =
      [⟨"connector1", 1, 1⟩, ⟨"connector1", 2, 2⟩] ∧
    update_connector [⟨"connector1", 1, 1⟩, ⟨"connector1", 2, 2⟩] 72 (93.6 : Dec)
        ⟨"connector1", "", "", "unknown", "", 0, 0, none, none⟩ =
      ⟨"connector1", "", "", "unknown", "", 1, 1, some 72, some (93.6 : Dec)⟩ :=
  C7_first_match_wins ⟨"connector1", "", "", "unknown", "", 0, 0, none, none⟩
    ⟨"connector1", 1, 1⟩ [⟨"connector1", 2, 2⟩] 72 (93.6 : Dec) (by decide)

/- Helper: over elements carrying no coordinate attributes (where no
   float conversion can fail), the extraction loop succeeds and returns
   exactly the pin candidates, in order, each at (0, 0) with markers
   stripped from its identifier. -/
theorem connLoop_all_none (l : List SvgElem) :
    (∀ e ∈ l, e.cx = none ∧ e.cy = none ∧ e.x = none ∧ e.y = none ∧
      e.x1 = none ∧ e.y1 = none ∧ e.d = none) →
    connLoop l = some ((l.filter (fun e => isPinCandidate e.id)).map
      (fun e => { id := stripPinPad e.id, x := 0, y := 0 })) := by
  induction l with
  | nil => intro _; rfl
  | cons e rest ih =>
    intro hl
    obtain ⟨hcx, hcy, hx, hy, hx1, hy1, hd⟩ := hl e (List.mem_cons_self e rest)
    have hco : extractCoord e = some (0, 0) := by
      simp [extractCoord, hcx, hcy, hx, hy, hx1, hy1, hd]
    have ihr := ih (fun e' he' => hl e' (List.mem_cons_of_mem e he'))
    by_cases hp : isPinCandidate e.id
    · simp [connLoop, hp, hco, ihr]
    · simp [connLoop, hp, ihr]

/-- C8: an element of the graphic document contributes a coordinate if
and only if its identifier, compared case-insensitively, contains the
substring "connector" and also contains "pin" or "pad" (the predicate
`isPinCandidate`, line 307): over a traversal of elements with no
coordinate attributes, the extracted list is exactly the candidate
filter of the traversal, so elements whose identifiers lack these
markers contribute no coordinate. -/
theorem C8_candidate_selection (root : SvgRoot)
    (hattrs : ∀ e ∈ root.elems, e.cx = none ∧ e.cy = none ∧ e.x = none ∧
      e.y = none ∧ e.x1 = none ∧ e.y1 = none ∧ e.d = none) :
    parse_connector_positions (.ok root) =
      (root.elems.filter (fun e => isPinCandidate e.id)).map
        (fun e => { id := stripPinPad e.id, x := 0, y := 0 }) := by
  simp [parse_connector_positions, connLoop_all_none root.elems hattrs]

/-- C8 witness: the theorem applied to a concrete traversal mixing
candidates of both marker kinds and non-candidates. -/
theorem C8_witness :
    parse_connector_positions (.ok { elems :=
      [{ id := "connector0pin" }, { id := "CONNECTOR1PAD" },
       { id := "connector7" }, { id := "label3pin" }] }) =
      [⟨"connector0", 0, 0⟩, ⟨"CONNECTOR1PAD", 0, 0⟩] := by
  have h := C8_candidate_selection
    { elems := [{ id := "connector0pin" }, { id := "CONNECTOR1PAD" },
                { id := "connector7" }, { id := "label3pin" }] }
    (by decide)
  rw [h]
  decide

/-- C9: per pin-candidate element the extracted coordinate follows the
priority cx/cy first, then x/y, then x1/y1, then the first move-to pair
of the path attribute: (1) a present cx/cy pair that parses wins
outright; (2) with cx or cy absent, a present x/y pair wins; (3) next a
present x1/y1 pair; (4) with none of those pairs present, the d
attribute "M 12.5,7 L 3,4" yields (12.5, 7); and (5) with no d attribute
either, the element yields the valid degraded coordinate (0, 0), not a
failure. -/
theorem C9_coordinate_priority (e : SvgElem) (sa sb : String) (a b : Dec) :
    ((e.cx = some sa ∧ e.cy = some sb ∧ pyFloat sa = some a ∧ pyFloat sb = some b) →
      extractCoord e = some (a, b)) ∧
    (((e.cx = none ∨ e.cy = none) ∧ e.x = some sa ∧ e.y = some sb ∧
        pyFloat sa = some a ∧ pyFloat sb = some b) →
      extractCoord e = some (a, b)) ∧
    (((e.cx = none ∨ e.cy = none) ∧ (e.x = none ∨ e.y = none) ∧
        e.x1 = some sa ∧ e.y1 = some sb ∧
        pyFloat sa = some a ∧ pyFloat sb = some b) →
      extractCoord e = some (a, b)) ∧
    (((e.cx = none ∨ e.cy = none) ∧ (e.x = none ∨ e.y = none) ∧
        (e.x1 = none ∨ e.y1 = none) ∧ e.d = some "M 12.5,7 L 3,4") →
      extractCoord e = some ((12.5 : Dec), 7)) ∧
    (((e.cx = none ∨ e.cy = none) ∧ (e.x = none ∨ e.y = none) ∧
        (e.x1 = none ∨ e.y1 = none) ∧ e.d = none) →
      extractCoord e = some (0, 0)) := by
  refine ⟨?_, ?_, ?_, ?_, ?_⟩
  · rintro ⟨hcx, hcy, ha, hb⟩
    simp [extractCoord, hcx, hcy, ha, hb]
  · rintro ⟨hor, hx, hy, ha, hb⟩
    rcases hor with h0 | h0 <;> simp [extractCoord, h0, hx, hy, ha, hb]
  · rintro ⟨hor1, hor2, hx1, hy1, ha, hb⟩
    rcases hor1 with h0 | h0 <;> rcases hor2 with h1 | h1 <;>
      simp [extractCoord, h0, h1, hx1, hy1, ha, hb]
  · rintro ⟨hor1, hor2, hor3, hd⟩
    rcases hor1 with h0 | h0 <;> rcases hor2 with h1 | h1 <;>
      rcases hor3 with h2 | h2 <;> simp [extractCoord, h0, h1, h2, hd] <;> decide
  · rintro ⟨hor1, hor2, hor3, hd⟩
    rcases hor1 with h0 | h0 <;> rcases hor2 with h1 | h1 <;>
      rcases hor3 with h2 | h2 <;> simp [extractCoord, h0, h1, h2, hd]

/-- C9 witness: the five cases of the priority theorem, each applied to
a concrete element in which every lower-priority attribute is also
present, so that the claimed precedence is visible. -/
theorem C9_witness :
    extractCoord ⟨"connectorc", some "1", some "2", some "3", some "4", some "5",
      some "6", some "M 7,8"⟩ = some (1, 2) ∧
    extractCoord ⟨"connectorc", none, none, some "3", some "4", some "5",
      some "6", some "M 7,8"⟩ = some (3, 4) ∧
    extractCoord ⟨"connectorc", none, none, none, none, some "5",
      some "6", some "M 7,8"⟩ = some (5, 6) ∧
    extractCoord { id := "connectorc", d := some "M 12.5,7 L 3,4" } =
      some ((12.5 : Dec), 7) ∧
    extractCoord { id := "connectorc" } = some (0, 0) :=
  ⟨(C9_coordinate_priority _ "1" "2" 1 2).1 ⟨rfl, rfl, by decide, by decide⟩,
   (C9_coordinate_priority _ "3" "4" 3 4).2.1 ⟨Or.inl rfl, rfl, rfl, by decide, by decide⟩,
   (C9_coordinate_priority _ "5" "6" 5 6).2.2.1
     ⟨Or.inl rfl, Or.inl rfl, rfl, rfl, by decide, by decide⟩,
   (C9_coordinate_priority _ "" "" 0 0).2.2.2.1
     ⟨Or.inl rfl, Or.inl rfl, Or.inl rfl, rfl⟩,
   (C9_coordinate_priority _ "" "" 0 0).2.2.2.2
     ⟨Or.inl rfl, Or.inl rfl, Or.inl rfl, rfl⟩⟩

/-- C10: dimension extraction follows the three-level priority of lines
342-373: (1) a viewBox whose whitespace split has four parts, the third
and fourth parsing as numbers, yields those two numbers; (2) with no
viewBox, present width/height attributes are parsed by the first
numeric substring of each, multiplied by 72 independently per axis
exactly when that axis based attribute string contains "in" — so
width "1in" height "2in" gives (72, 144); (3) with neither, the result
is the fallback (72, 93.6); and viewBox "0 0 36 79.2" gives (36, 79.2). -/
theorem C10_dimension_priority (root : SvgRoot) (vb p0 p1 s2 s3 ws hs ws2 hs2 : String)
    (w h : Dec) :
    ((root.viewBox = some vb ∧ vb ≠ "" ∧ pySplit vb = [p0, p1, s2, s3] ∧
        pyFloat s2 = some w ∧ pyFloat s3 = some h) →
      get_svg_dimensions (.ok root) = (w, h)) ∧
    ((root.viewBox = none ∧ root.width = some ws ∧ root.height = some hs ∧
        firstNumSub ws.toList = some ws2 ∧ firstNumSub hs.toList = some hs2 ∧
        pyFloat ws2 = some w ∧ pyFloat hs2 = some h) →
      get_svg_dimensions (.ok root) =
        ((if strIn "in" ws then w * 72 else w), (if strIn "in" hs then h * 72 else h))) ∧
    get_svg_dimensions (.ok { viewBox := some "0 0 36 79.2" }) = (36, (79.2 : Dec)) ∧
    get_svg_dimensions (.ok { width := some "1in", height := some "2in" }) = (72, 144) ∧
    get_svg_dimensions (.ok {}) = (72, (93.6 : Dec)) := by
  refine ⟨?_, ?_, by decide, by decide, by decide⟩
  · rintro ⟨hvb, hne, hparts, hw, hh⟩
    simp [get_svg_dimensions, dimsTry, hvb, hne, hparts, hw, hh]
  · rintro ⟨hvb, hws, hhs, hfw, hfh, hpw, hph⟩
    have hfw2 : firstNumSub ws.data = some ws2 := hfw
    have hfh2 : firstNumSub hs.data = some hs2 := hfh
    simp [get_svg_dimensions, dimsTry, dimsViaWH, hvb, hws, hhs, hfw2, hfh2, hpw, hph]

/-- C10 witness: both general conjuncts applied at concrete documents. -/
theorem C10_witness :
    get_svg_dimensions (.ok { viewBox := some "0 0 10 20" }) = (10, 20) ∧
    get_svg_dimensions (.ok { width := some "4in", height := some "5" }) = (288, 5) :=
  ⟨(C10_dimension_priority { viewBox := some "0 0 10 20" } "0 0 10 20" "0" "0" "10" "20"
      "" "" "" "" 10 20).1 ⟨rfl, by decide, by decide, by decide, by decide⟩,
   (C10_dimension_priority { width := some "4in", height := some "5" } "" "" "" "" ""
      "4in" "5" "4" "5" 4 5).2.1
     ⟨rfl, rfl, rfl, by decide, by decide, by decide, by decide⟩⟩
